import Mathlib

/-!
Verification development for the `plures-ruby` gumath binding
(`src/gumath/ext/ruby_gumath/ruby_gumath.c`).

The file shallowly embeds the dispatch-and-apply pipeline of
`Gumath_GufuncObject_call` together with the configuration and
registration entry points. External collaborators (`gm_select`,
`rb_xnd_empty_from_type`, `gm_apply` / `gm_apply_thread`,
`rb_xnd_from_xnd`) are modelled as oracles bundled in a `Collab`
record: each oracle fixes the outcome the collaborator would report,
and the embedding reproduces the C control flow around those
outcomes.  Every observable side effect of a call (table access,
allocations, releases, descriptor frees) is recorded in a `Trace`
so that resource/lifecycle properties can be stated.
-/

set_option autoImplicit false

namespace RubyGumath

/-- An `ndt_t *` type descriptor, identified abstractly by a code. -/
abbrev NdtType := Nat

/-- An output type as classified by `ndt_is_concrete` / `ndt_is_abstract`
(lines 169 and 198 of ruby_gumath.c): concrete types can be allocated
before the kernel runs, abstract ones only after. -/
inductive OutTy where
  | concrete : NdtType → OutTy
  | abstract : NdtType → OutTy
deriving DecidableEq, Repr

/-- Executable form of `ndt_is_concrete` on an output entry. -/
def OutTy.isConcrete : OutTy → Bool
  | .concrete _ => true
  | .abstract _ => false

/-- Executable form of `ndt_is_abstract` on an output entry. -/
def OutTy.isAbstract (t : OutTy) : Bool := !t.isConcrete

/-- The `ndt_apply_spec_t` record filled in by `gm_select`:
`nbroadcast` / `broadcast` hold the broadcast-resolved input types
(broadcast applied iff `nbroadcast > 0`), `out` the declared output
types (`spec.nout` entries), plus `outer_dims` and `flags`. -/
structure ApplySpec where
  nbroadcast : Nat
  broadcast : List NdtType
  out : List OutTy
  outer_dims : Nat
  flags : Nat
deriving DecidableEq, Repr

/-- The field `spec.nout`: in the C struct this field always equals the number of
entries of `spec.out`. -/
def ApplySpec.nout (s : ApplySpec) : Nat := s.out.length

/-- A Ruby-level call argument: `rb_xnd_check_type` decides whether it is
an XND object, and `ty` is the type descriptor `rb_xnd_const_xnd(argv[i])->type`
read at line 151. -/
structure Arg where
  isXnd : Bool
  ty : NdtType
deriving DecidableEq, Repr

/-- Outcomes of the external collaborators, per call:
* `select`   — `gm_select` (returns the filled `ApplySpec`, or `none` when
  `kernel.set == NULL`, line 157);
* `allocOk`  — whether `rb_xnd_empty_from_type` succeeds for the output at
  a given index (line 170);
* `applyOk`  — whether `gm_apply_thread` / `gm_apply` returns `>= 0`
  (lines 185 and 191);
* `fromXndOk` — whether `rb_xnd_from_xnd` succeeds for the abstract output
  at a given index (line 200). -/
structure Collab where
  select : List NdtType → Option ApplySpec
  allocOk : Nat → Bool
  applyOk : Bool
  fromXndOk : Nat → Bool

/-- The Ruby exceptions the call can raise. -/
inductive CallError where
  | tooManyArgs  -- rb_eArgError, line 142
  | argNotXnd    -- rb_eArgError, line 147
  | selection    -- seterr + raise_error after gm_select fails, lines 158-159
  | noMem        -- rb_eNoMemError, line 173
  | applyErr     -- seterr + raise_error after a failed apply, lines 186-194
deriving DecidableEq, Repr

/-- The Ruby value returned by the switch on `spec.nout` (lines 219-229):
`Qnil` for zero outputs, `result[0]` for one, an array of the `result`
entries otherwise.  A buffer is identified by its output index; `none`
stands for a `NULL` entry of `result`. -/
inductive RValue where
  | nil : RValue
  | single : Option Nat → RValue
  | tuple : List (Option Nat) → RValue
deriving DecidableEq, Repr

/-- The sequence of result slots the caller receives. -/
def RValue.toSeq : RValue → List (Option Nat)
  | .nil => []
  | .single v => [v]
  | .tuple vs => vs

/-- The actual buffers among the result slots handed back: a `NULL`
(`none`) slot carries no buffer. -/
def RValue.buffers (v : RValue) : List Nat := v.toSeq.filterMap id

/-- Caller-visible outcome of a call: a returned value or a raised error. -/
inductive Outcome where
  | ok : RValue → Outcome
  | err : CallError → Outcome
deriving DecidableEq, Repr

/-- The observable side effects of one call.
* `selectCalled` — the `in_types` handed to `gm_select`, when it was reached;
* `stackTypes` — the input entries' types as seen by the apply step (after
  the optional broadcast rewrite of lines 162-166);
* `allocated` — output indices for which `rb_xnd_empty_from_type` created a
  buffer, in order;
* `specCleared` — whether `ndt_apply_spec_clear` ran (line 172);
* `applyCalled` — whether the apply step was reached;
* `xndDelBufferCalls` — output indices passed to `xnd_del_buffer` by the
  abstract-output cleanup loop (lines 203-207);
* `outDeleted` — output indices whose descriptor was freed by `ndt_del`
  in the resolution loop (line 199);
* `broadcastDeleted` — input indices whose broadcast descriptor was freed
  by the final loop (lines 213-217);
* `gcReleased` — buffers reclaimed by the host GC: when `rb_raise` unwinds
  the C frame, XND objects referenced only from the local `result` array
  become unreachable and are collected (their state becomes *released*). -/
structure Trace where
  selectCalled : Option (List NdtType) := none
  stackTypes : List NdtType := []
  allocated : List Nat := []
  specCleared : Bool := false
  applyCalled : Bool := false
  xndDelBufferCalls : List Nat := []
  outDeleted : List Nat := []
  broadcastDeleted : List Nat := []
  gcReleased : List Nat := []
deriving DecidableEq, Repr

/-- Result of a call: outcome plus side-effect trace. -/
structure CallResult where
  outcome : Outcome
  trace : Trace
deriving DecidableEq, Repr

/-- The constant `NDT_MAX_ARGS`, the engine's fixed maximum arity (from ndtypes.h). -/
def NDT_MAX_ARGS : Nat := 32

/-- Whether `spec.out` has an abstract entry at index `i`. -/
def isAbstractAt (outs : List OutTy) (i : Nat) : Bool :=
  (outs.getD i (.concrete 0)).isAbstract

/-- The output-planning loop, lines 168-182.  Walks `spec.out` at absolute
index `i`.  For a concrete entry, `rb_xnd_empty_from_type` is asked for a
fresh XND object (outcome given by oracle `a`; the new buffer is identified
by its output index): on success `result[i]` is that object and
`stack[nin+i]` views it.  For an abstract entry, `result[i] = NULL` and
`stack[nin+i] = xnd_error`.  On the first allocation failure the C code
calls `ndt_apply_spec_clear` and raises `NoMemError`; the `.error` value
carries the indices allocated before the failure, in order. -/
def allocOutputs (a : Nat → Bool) :
    List OutTy → Nat → Except (List Nat) (List (Option Nat) × List Nat)
  | [], _ => .ok ([], [])
  | t :: rest, i =>
    if t.isConcrete then
      if a i then
        match allocOutputs a rest (i + 1) with
        | .error alloc => .error (i :: alloc)
        | .ok (res, alloc) => .ok (some i :: res, i :: alloc)
      else .error []
    else
      match allocOutputs a rest (i + 1) with
      | .error alloc => .error alloc
      | .ok (res, alloc) => .ok (none :: res, alloc)

/-- The inner cleanup loop of lines 203-207: `for (k = i+i; k < spec.nout;
k++)`, calling `xnd_del_buffer(&stack[nin+k], XND_OWN_ALL)` for each
abstract entry; this function lists those `k` for a given start value.
Note the C start value is `i+i`, not `i+1`. -/
def xndDelRange (outs : List OutTy) (start : Nat) : List Nat :=
  (List.range outs.length).filter (fun k => decide (start ≤ k) && isAbstractAt outs k)

/-- The abstract-output resolution loop, lines 197-211, iterating `i` over
`idxs` (in the C code, `0 .. spec.nout - 1`).  For each abstract entry:
`ndt_del(spec.out[i])` (recorded second component), then `rb_xnd_from_xnd`
on the stack slot (outcome given by oracle `f`; the wrapped buffer is
identified by its output index), then `stack[nin+i] = xnd_error`; on
failure the inner cleanup loop starting at `k = i+i` runs (recorded third
component) and `result[i]` is set to `NULL` — the loop then continues, no
error is raised.  First component: the final `result` entries. -/
def resolveLoop (f : Nat → Bool) (outs : List OutTy) :
    List Nat → List (Option Nat) → List (Option Nat) × List Nat × List Nat
  | [], res => (res, [], [])
  | i :: rest, res =>
    if isAbstractAt outs i then
      let r := resolveLoop f outs rest (res.set i (if f i then some i else none))
      (r.1, i :: r.2.1, (if f i then [] else xndDelRange outs (i + i)) ++ r.2.2)
    else
      resolveLoop f outs rest res

/-- The function `Gumath_GufuncObject_call`, lines 128-230 of ruby_gumath.c.

Control flow, in source order: the arity check against `NDT_MAX_ARGS`
(lines 141-143); the per-argument `rb_xnd_check_type` loop that also
collects `in_types` in argument order (lines 145-152); `gm_select`
(lines 156-160); the broadcast rewrite of the input stack entries,
performed only when `spec.nbroadcast > 0` (lines 162-166); the
output-planning loop (lines 168-182); the apply step (lines 184-195) —
on failure the C code raises immediately, with no release calls and no
spec clear; the abstract-output resolution loop (lines 197-211); the
broadcast-descriptor free loop (lines 213-217); the return switch on
`spec.nout` (lines 219-229).

`rb_raise` unwinds the C frame by longjmp; XND objects referenced only
from the local `result` array then become unreachable and the host GC
reclaims them — the trace records those in `gcReleased`.  Raw
(non-Ruby-wrapped) xnd buffers, and raw `ndt_t` descriptors, are not
subject to the GC and are released only by the explicit calls the trace
records. -/
def Gumath_GufuncObject_call (c : Collab) (args : List Arg) : CallResult :=
  if args.length > NDT_MAX_ARGS then
    { outcome := .err .tooManyArgs, trace := {} }
  else if args.all (fun a => a.isXnd) then
    let in_types := args.map (fun a => a.ty)
    match c.select in_types with
    | none => { outcome := .err .selection, trace := { selectCalled := some in_types } }
    | some spec =>
      let stackTypes :=
        if spec.nbroadcast > 0 then spec.broadcast.take args.length else in_types
      match allocOutputs c.allocOk spec.out 0 with
      | .error alloc =>
        { outcome := .err .noMem,
          trace := { selectCalled := some in_types, stackTypes := stackTypes,
                     allocated := alloc, specCleared := true, gcReleased := alloc } }
      | .ok (res, alloc) =>
        if c.applyOk then
          let r := resolveLoop c.fromXndOk spec.out (List.range spec.out.length) res
          let rv : RValue :=
            if spec.out.length = 0 then .nil
            else if spec.out.length = 1 then .single (r.1.headD none)
            else .tuple r.1
          { outcome := .ok rv,
            trace := { selectCalled := some in_types, stackTypes := stackTypes,
                       allocated := alloc, applyCalled := true,
                       outDeleted := r.2.1, xndDelBufferCalls := r.2.2,
                       broadcastDeleted :=
                         if spec.nbroadcast > 0 then List.range args.length else [] } }
        else
          { outcome := .err .applyErr,
            trace := { selectCalled := some in_types, stackTypes := stackTypes,
                       allocated := alloc, applyCalled := true, gcReleased := alloc } }
  else
    { outcome := .err .argNotXnd, trace := {} }

/-- The function `Gumath_s_get_max_threads`, lines 242-246: returns the process-wide
`max_threads` value. -/
def Gumath_s_get_max_threads (max_threads : Int) : Int := max_threads

/-- The configuration error of the spec's configuration surface. -/
inductive ConfigError where
  | invalidThreadCount
deriving DecidableEq, Repr

/-- Modelled from the spec: the body of `Gumath_s_set_max_threads`
(lines 248-252 of ruby_gumath.c) is empty — the deciding code is missing
from the source, only the entry point and its registration are present.
Spec section 6, configuration surface: `set_max_threads(integer) ->
Result<(), ConfigError>` (must reject values < 1); on success the
process-wide `max_threads` becomes the given value.  Returns the new
`max_threads` state together with the optional error. -/
def Gumath_s_set_max_threads (max_threads v : Int) : Int × Option ConfigError :=
  if v < 1 then (max_threads, some .invalidThreadCount) else (v, none)

/-- A registered kernel entry (spec section 3): name, type signature and a
non-null opaque callable (`0` stands for a null pointer). -/
structure KernelEntry where
  name : String
  input_signature : Nat
  function_pointer : Nat
deriving DecidableEq, Repr

/-- Registration failure (spec section 4.1). -/
inductive RegError where
  | duplicateOrInvalid
deriving DecidableEq, Repr

/-- Modelled from the spec: the body of `Gumath_s_unsafe_add_kernel`
(lines 236-240 of ruby_gumath.c) is empty — the deciding code is missing
from the source, only the entry point and its registration are present.
Spec section 4.1, Kernel Table contract: `register(name, signature,
function_pointer) -> Result<(), DuplicateOrInvalid)`; registration is
append-only and the table does not support unregistration.  Invalid means
a null function pointer; duplicate means an entry with the same name and
signature is already registered. -/
def Gumath_s_unsafe_add_kernel (tbl : List KernelEntry) (name : String)
    (sig fp : Nat) : Except RegError (List KernelEntry) :=
  if fp == 0 || tbl.any (fun e => e.name == name && e.input_signature == sig) then
    .error .duplicateOrInvalid
  else
    .ok (tbl ++ [⟨name, sig, fp⟩])

/-- The absolute positions of the concrete entries of `spec.out`, starting
from index `i` — exactly the indices at which the output-planning loop
attempts an allocation, in loop order. -/
def concreteIdxsFrom : List OutTy → Nat → List Nat
  | [], _ => []
  | t :: rest, i =>
    if t.isConcrete then i :: concreteIdxsFrom rest (i + 1)
    else concreteIdxsFrom rest (i + 1)

/-- The positions of the concrete entries of `spec.out`. -/
def concreteIdxs (outs : List OutTy) : List Nat := concreteIdxsFrom outs 0

/-! Concrete instances used to evaluate the model at specific inputs. -/

/-- A collaborator assignment on which selection fails; used where only the
pre-selection behaviour matters. -/
def trivCollab : Collab :=
  { select := fun _ => none, allocOk := fun _ => true, applyOk := true,
    fromXndOk := fun _ => true }

/-- A spec with two concrete and two abstract outputs, for exercising the
abstract-output cleanup loop at failure index 2. -/
def c1Spec : ApplySpec :=
  { nbroadcast := 0, broadcast := [],
    out := [.concrete 10, .concrete 11, .abstract 12, .abstract 13],
    outer_dims := 1, flags := 0 }

/-- Collaborators for the `c1Spec` run: allocation and apply succeed, every
`rb_xnd_from_xnd` conversion fails. -/
def c1Collab : Collab :=
  { select := fun _ => some c1Spec, allocOk := fun _ => true, applyOk := true,
    fromXndOk := fun _ => false }

/-- A spec with concrete outputs at positions 0 and 1 and an abstract output
at position 2, for exercising allocation failure at the second concrete
output. -/
def c2Spec : ApplySpec :=
  { nbroadcast := 0, broadcast := [],
    out := [.concrete 1, .concrete 2, .abstract 3], outer_dims := 1, flags := 0 }

/-- Collaborators for the `c2Spec` run: only the allocation at output index 0
succeeds. -/
def c2Collab : Collab :=
  { select := fun _ => some c2Spec, allocOk := fun i => i == 0, applyOk := true,
    fromXndOk := fun _ => true }

/-- A spec with one concrete and one abstract output, for exercising a failed
apply with a partially-written abstract output. -/
def c3Spec : ApplySpec :=
  { nbroadcast := 0, broadcast := [], out := [.concrete 20, .abstract 21],
    outer_dims := 4, flags := 0 }

/-- Collaborators for the `c3Spec` run: allocation succeeds, the kernel
application fails. -/
def c3Collab : Collab :=
  { select := fun _ => some c3Spec, allocOk := fun _ => true, applyOk := false,
    fromXndOk := fun _ => true }

/-- A spec with broadcasting applied (`nbroadcast = 1`), for exercising a
failed apply while broadcast descriptors are live. -/
def c4Spec : ApplySpec :=
  { nbroadcast := 1, broadcast := [30], out := [.concrete 31],
    outer_dims := 2, flags := 0 }

/-- Collaborators for the `c4Spec` run: allocation succeeds, the kernel
application fails. -/
def c4Collab : Collab :=
  { select := fun _ => some c4Spec, allocOk := fun _ => true, applyOk := false,
    fromXndOk := fun _ => true }

/-- A spec with one concrete and one abstract output on which every stage
succeeds. -/
def c7Spec : ApplySpec :=
  { nbroadcast := 0, broadcast := [], out := [.concrete 1, .abstract 2],
    outer_dims := 1, flags := 0 }

/-- Collaborators for the `c7Spec` run: every stage succeeds. -/
def c7Collab : Collab :=
  { select := fun _ => some c7Spec, allocOk := fun _ => true, applyOk := true,
    fromXndOk := fun _ => true }

/-- A spec declaring a single abstract output, for exercising a failed
abstract-output conversion on a call that still returns. -/
def c7BugSpec : ApplySpec :=
  { nbroadcast := 0, broadcast := [], out := [.abstract 40],
    outer_dims := 1, flags := 0 }

/-- Collaborators for the `c7BugSpec` run: selection, allocation and apply
succeed, the `rb_xnd_from_xnd` conversion of the abstract output fails. -/
def c7BugCollab : Collab :=
  { select := fun _ => some c7BugSpec, allocOk := fun _ => true, applyOk := true,
    fromXndOk := fun _ => false }

/-! Helper lemmas. -/

/-- Unfolding equation for `concreteIdxsFrom` on a cons cell. -/
theorem concreteIdxsFrom_cons (t : OutTy) (rest : List OutTy) (i : Nat) :
    concreteIdxsFrom (t :: rest) i =
      if t.isConcrete then i :: concreteIdxsFrom rest (i + 1)
      else concreteIdxsFrom rest (i + 1) := rfl

/-- When the `k`-th concrete allocation is the first to fail, the planning
loop stops with exactly the earlier `k` concrete positions allocated. -/
theorem allocOutputs_first_fail (a : Nat → Bool) (outs : List OutTy) :
    ∀ (i k : Nat),
      k < (concreteIdxsFrom outs i).length →
      a ((concreteIdxsFrom outs i).getD k 0) = false →
      (∀ j, j < k → a ((concreteIdxsFrom outs i).getD j 0) = true) →
      allocOutputs a outs i = .error ((concreteIdxsFrom outs i).take k) := by
  induction outs with
  | nil =>
    intro i k hk _ _
    simp [concreteIdxsFrom] at hk
  | cons t rest ih =>
    intro i k hk hfail hprev
    by_cases hc : t.isConcrete = true
    · rw [concreteIdxsFrom_cons, if_pos hc] at hk hfail hprev ⊢
      cases k with
      | zero =>
        simp only [List.getD_cons_zero] at hfail
        simp [allocOutputs, hc, hfail]
      | succ k' =>
        have h0 : a i = true := by simpa using hprev 0 (Nat.succ_pos k')
        have hk' : k' < (concreteIdxsFrom rest (i + 1)).length := by
          simpa using hk
        have hfail' : a ((concreteIdxsFrom rest (i + 1)).getD k' 0) = false := by
          simpa using hfail
        have hprev' : ∀ j, j < k' →
            a ((concreteIdxsFrom rest (i + 1)).getD j 0) = true := by
          intro j hj
          simpa using hprev (j + 1) (Nat.succ_lt_succ hj)
        have hrec := ih (i + 1) k' hk' hfail' hprev'
        simp [allocOutputs, hc, h0, hrec]
    · rw [concreteIdxsFrom_cons, if_neg hc] at hk hfail hprev ⊢
      have hrec := ih (i + 1) k hk hfail hprev
      simp [allocOutputs, hc, hrec]

/-- When planning succeeds, the `result` array has one slot per declared
output. -/
theorem allocOutputs_ok_length (a : Nat → Bool) (outs : List OutTy) :
    ∀ (i : Nat) (res : List (Option Nat)) (alloc : List Nat),
      allocOutputs a outs i = .ok (res, alloc) → res.length = outs.length := by
  induction outs with
  | nil =>
    intro i res alloc h
    simp only [allocOutputs] at h
    cases h
    rfl
  | cons t rest ih =>
    intro i res alloc h
    unfold allocOutputs at h
    by_cases hc : t.isConcrete = true
    · rw [if_pos hc] at h
      by_cases ha : a i = true
      · rw [if_pos ha] at h
        cases hrec : allocOutputs a rest (i + 1) with
        | error e => rw [hrec] at h; simp at h
        | ok pr =>
          obtain ⟨res', alloc'⟩ := pr
          rw [hrec] at h
          simp only [Except.ok.injEq, Prod.mk.injEq] at h
          obtain ⟨h1, h2⟩ := h
          rw [← h1]
          simp [ih (i + 1) res' alloc' hrec]
      · rw [if_neg ha] at h
        simp at h
    · rw [if_neg hc] at h
      cases hrec : allocOutputs a rest (i + 1) with
      | error e => rw [hrec] at h; simp at h
      | ok pr =>
        obtain ⟨res', alloc'⟩ := pr
        rw [hrec] at h
        simp only [Except.ok.injEq, Prod.mk.injEq] at h
        obtain ⟨h1, h2⟩ := h
        rw [← h1]
        simp [ih (i + 1) res' alloc' hrec]

/-- The resolution loop does not change the number of `result` slots. -/
theorem resolveLoop_fst_length (f : Nat → Bool) (outs : List OutTy) :
    ∀ (idxs : List Nat) (res : List (Option Nat)),
      (resolveLoop f outs idxs res).1.length = res.length := by
  intro idxs
  induction idxs with
  | nil => intro res; rfl
  | cons i rest ih =>
    intro res
    by_cases h : isAbstractAt outs i = true
    · simp [resolveLoop, h, ih]
    · simp [resolveLoop, h, ih]

/-! Claim theorems. -/

/-- C6: a call whose argument count exceeds `NDT_MAX_ARGS` fails with the
too-many-arguments error before any kernel-table access (`gm_select` is
never reached) and with no other side effects: the whole trace is empty. -/
theorem call_arity_guard (c : Collab) (args : List Arg)
    (h : args.length > NDT_MAX_ARGS) :
    (Gumath_GufuncObject_call c args).outcome = .err .tooManyArgs ∧
    (Gumath_GufuncObject_call c args).trace.selectCalled = none ∧
    (Gumath_GufuncObject_call c args).trace = {} := by
  unfold Gumath_GufuncObject_call
  rw [if_pos h]
  exact ⟨rfl, rfl, rfl⟩

/-- Witness for C6: a 33-argument call trips the arity guard. -/
theorem call_arity_guard_witness :
    (List.replicate 33 (Arg.mk true 0)).length > NDT_MAX_ARGS ∧
    ((Gumath_GufuncObject_call trivCollab (List.replicate 33 (Arg.mk true 0))).outcome
        = .err .tooManyArgs ∧
      (Gumath_GufuncObject_call trivCollab
          (List.replicate 33 (Arg.mk true 0))).trace.selectCalled = none ∧
      (Gumath_GufuncObject_call trivCollab (List.replicate 33 (Arg.mk true 0))).trace
        = {}) :=
  ⟨by decide, call_arity_guard trivCollab (List.replicate 33 (Arg.mk true 0)) (by decide)⟩

/-- C10: within the arity bound, a call with a non-XND argument fails with
the argument-type error before `gm_select` and before any allocation, with
an empty trace; and when every argument passes the check, the type of every
argument is handed to `gm_select`, in argument order. -/
theorem call_arg_check (c : Collab) (args : List Arg)
    (hlen : ¬ args.length > NDT_MAX_ARGS) :
    (args.all (fun a => a.isXnd) = false →
      Gumath_GufuncObject_call c args
        = { outcome := .err .argNotXnd, trace := {} }) ∧
    (args.all (fun a => a.isXnd) = true →
      (Gumath_GufuncObject_call c args).trace.selectCalled
        = some (args.map (fun a => a.ty))) := by
  constructor
  · intro h
    unfold Gumath_GufuncObject_call
    rw [if_neg hlen, if_neg (by simp [h])]
  · intro h
    unfold Gumath_GufuncObject_call
    rw [if_neg hlen, if_pos h]
    cases hsel : c.select (args.map fun a => a.ty) with
    | none => simp only [hsel]
    | some spec =>
      simp only [hsel]
      cases halloc : allocOutputs c.allocOk spec.out 0 with
      | error alloc => simp only [halloc]
      | ok pr =>
        obtain ⟨res, alloc⟩ := pr
        simp only [halloc]
        by_cases hap : c.applyOk = true
        · simp [hap]
        · simp [hap]

/-- Witness for C10: a single non-XND argument is rejected with an empty
trace. -/
theorem call_arg_check_witness :
    ¬ ([Arg.mk false 5].length > NDT_MAX_ARGS) ∧
    Gumath_GufuncObject_call trivCollab [Arg.mk false 5]
      = { outcome := .err .argNotXnd, trace := {} } :=
  ⟨by decide, (call_arg_check trivCollab [Arg.mk false 5] (by decide)).1 (by decide)⟩

/-- C5 (spec-modelled, the C body of `Gumath_s_set_max_threads` is empty):
`set_max_threads v` with `v < 1` fails with the configuration error and a
subsequent `get_max_threads` still returns the previously configured value;
with `1 ≤ v` it succeeds and `get_max_threads` returns `v`. -/
theorem set_max_threads_guard (m v : Int) :
    (v < 1 →
      Gumath_s_set_max_threads m v = (m, some .invalidThreadCount) ∧
      Gumath_s_get_max_threads (Gumath_s_set_max_threads m v).1 = m) ∧
    (1 ≤ v →
      Gumath_s_set_max_threads m v = (v, none) ∧
      Gumath_s_get_max_threads (Gumath_s_set_max_threads m v).1 = v) := by
  constructor
  · intro h
    refine ⟨?_, ?_⟩ <;>
      simp [Gumath_s_set_max_threads, Gumath_s_get_max_threads, h]
  · intro h
    refine ⟨?_, ?_⟩ <;>
      simp [Gumath_s_set_max_threads, Gumath_s_get_max_threads, not_lt.mpr h]

/-- Witness for C5: rejecting `0` leaves the prior value `7`; setting `3`
succeeds and is read back. -/
theorem set_max_threads_guard_witness :
    (Gumath_s_set_max_threads 7 0 = (7, some .invalidThreadCount) ∧
      Gumath_s_get_max_threads (Gumath_s_set_max_threads 7 0).1 = 7) ∧
    (Gumath_s_set_max_threads 7 3 = (3, none) ∧
      Gumath_s_get_max_threads (Gumath_s_set_max_threads 7 3).1 = 3) :=
  ⟨(set_max_threads_guard 7 0).1 (by decide), (set_max_threads_guard 7 3).2 (by decide)⟩

/-- C9 (spec-modelled, the C body of `Gumath_s_unsafe_add_kernel` is
empty): registration either succeeds by appending exactly the new entry
under the given name, or fails with the duplicate-or-invalid error; it is
append-only — every previously registered entry survives. -/
theorem unsafe_add_kernel_append_only (tbl : List KernelEntry) (name : String)
    (sig fp : Nat) :
    (∀ tbl', Gumath_s_unsafe_add_kernel tbl name sig fp = .ok tbl' →
      tbl' = tbl ++ [⟨name, sig, fp⟩]) ∧
    (∀ e, Gumath_s_unsafe_add_kernel tbl name sig fp = .error e →
      e = .duplicateOrInvalid) ∧
    (∀ tbl', Gumath_s_unsafe_add_kernel tbl name sig fp = .ok tbl' →
      ∀ x, x ∈ tbl → x ∈ tbl') := by
  refine ⟨?_, ?_, ?_⟩
  · intro tbl' h
    unfold Gumath_s_unsafe_add_kernel at h
    split at h
    · simp at h
    · simp only [Except.ok.injEq] at h
      exact h.symm
  · intro e h
    cases e
    rfl
  · intro tbl' h x hx
    unfold Gumath_s_unsafe_add_kernel at h
    split at h
    · simp at h
    · simp only [Except.ok.injEq] at h
      rw [← h]
      exact List.mem_append_left _ hx

/-- Witness for C9: registering `sin` in the empty table appends exactly
that entry. -/
theorem unsafe_add_kernel_append_only_witness :
    Gumath_s_unsafe_add_kernel [] "sin" 2 5 = .ok [⟨"sin", 2, 5⟩] ∧
    ([⟨"sin", 2, 5⟩] : List KernelEntry) = [] ++ [⟨"sin", 2, 5⟩] :=
  ⟨rfl, (unsafe_add_kernel_append_only [] "sin" 2 5).1 [⟨"sin", 2, 5⟩] rfl⟩

/-- C1 is falsified by the code (the cleanup loop of lines 203-207 starts
at `k = i+i` instead of the index the claim demands, and the loop raises
no error): in a call whose outputs are two concrete followed by two
abstract entries, with every `rb_xnd_from_xnd` conversion failing, the
conversion at index `i = 2` fails yet no `xnd_del_buffer` call is made at
all — in particular the unresolved abstract output at index 3 is never
released — and the call returns normally (with `NULL` result entries)
instead of surfacing an error. -/
theorem call_abstract_cleanup_bug :
    (Gumath_GufuncObject_call c1Collab [Arg.mk true 0]).trace.xndDelBufferCalls
      = [] ∧
    c1Collab.fromXndOk 2 = false ∧
    isAbstractAt c1Spec.out 3 = true ∧
    (Gumath_GufuncObject_call c1Collab [Arg.mk true 0]).outcome
      = .ok (.tuple [some 0, some 1, none, none]) := by
  decide

/-- C3 is falsified by the code (lines 184-195 raise immediately on a
failed apply, with no cleanup): in a call with one concrete and one
abstract output whose kernel application fails, the apply error is
surfaced but no `xnd_del_buffer` call releases the partially-written
abstract output in its stack slot, and the spec is not cleared; only the
Ruby-wrapped concrete output is reclaimed, by the host GC. -/
theorem call_apply_fail_leak :
    (Gumath_GufuncObject_call c3Collab [Arg.mk true 0]).outcome
      = .err .applyErr ∧
    (Gumath_GufuncObject_call c3Collab [Arg.mk true 0]).trace.xndDelBufferCalls
      = [] ∧
    (Gumath_GufuncObject_call c3Collab [Arg.mk true 0]).trace.specCleared
      = false ∧
    (Gumath_GufuncObject_call c3Collab [Arg.mk true 0]).trace.gcReleased
      = [0] := by
  decide

/-- C4 is falsified by the code: on the apply-failure exit path of a call
in which broadcasting was applied (`nbroadcast = 1`), the call raises
without freeing any broadcast type descriptor and without clearing the
apply spec, so the per-call `ApplySpec` is not fully released on that
path. -/
theorem call_spec_leak_on_apply_fail :
    (Gumath_GufuncObject_call c4Collab [Arg.mk true 0]).outcome
      = .err .applyErr ∧
    c4Spec.nbroadcast > 0 ∧
    (Gumath_GufuncObject_call c4Collab [Arg.mk true 0]).trace.broadcastDeleted
      = [] ∧
    (Gumath_GufuncObject_call c4Collab [Arg.mk true 0]).trace.specCleared
      = false := by
  decide

/-- C2: when the `(k+1)`-st concrete output allocation is the first to fail
(`k` is 0-based), the call fails with the allocation error, exactly the `k`
buffers allocated earlier in the same planning pass are released (they are
the Ruby objects the raise makes unreachable, so the host GC reclaims all
of them, and only them), and no value is returned to the caller. -/
theorem call_alloc_rollback (c : Collab) (args : List Arg) (spec : ApplySpec)
    (k : Nat)
    (hlen : ¬ args.length > NDT_MAX_ARGS)
    (hxnd : args.all (fun a => a.isXnd) = true)
    (hsel : c.select (args.map (fun a => a.ty)) = some spec)
    (hk : k < (concreteIdxs spec.out).length)
    (hfail : c.allocOk ((concreteIdxs spec.out).getD k 0) = false)
    (hprev : ∀ j, j < k → c.allocOk ((concreteIdxs spec.out).getD j 0) = true) :
    (Gumath_GufuncObject_call c args).outcome = .err .noMem ∧
    (Gumath_GufuncObject_call c args).trace.allocated
      = (concreteIdxs spec.out).take k ∧
    (Gumath_GufuncObject_call c args).trace.gcReleased
      = (Gumath_GufuncObject_call c args).trace.allocated ∧
    ((Gumath_GufuncObject_call c args).trace.allocated).length = k ∧
    (∀ rv, (Gumath_GufuncObject_call c args).outcome ≠ .ok rv) := by
  have hall : allocOutputs c.allocOk spec.out 0
      = .error ((concreteIdxs spec.out).take k) :=
    allocOutputs_first_fail c.allocOk spec.out 0 k hk hfail hprev
  have hcall : Gumath_GufuncObject_call c args
      = { outcome := .err .noMem,
          trace := { selectCalled := some (args.map (fun a => a.ty)),
                     stackTypes := if spec.nbroadcast > 0
                       then spec.broadcast.take args.length
                       else args.map (fun a => a.ty),
                     allocated := (concreteIdxs spec.out).take k,
                     specCleared := true,
                     gcReleased := (concreteIdxs spec.out).take k } } := by
    unfold Gumath_GufuncObject_call
    rw [if_neg hlen, if_pos hxnd]
    simp only [hsel, hall]
  rw [hcall]
  refine ⟨rfl, rfl, rfl, ?_, fun rv h => by simp at h⟩
  simp only [List.length_take]
  omega

/-- Witness for C2: with `c2Spec` (concrete outputs at positions 0 and 1)
and an allocator succeeding only at position 0, the failure at the second
concrete output rolls back exactly the first buffer. -/
theorem call_alloc_rollback_witness :
    c2Collab.select ([Arg.mk true 0].map (fun a => a.ty)) = some c2Spec ∧
    c2Collab.allocOk ((concreteIdxs c2Spec.out).getD 1 0) = false ∧
    (Gumath_GufuncObject_call c2Collab [Arg.mk true 0]).outcome = .err .noMem ∧
    (Gumath_GufuncObject_call c2Collab [Arg.mk true 0]).trace.allocated
      = (concreteIdxs c2Spec.out).take 1 :=
  ⟨rfl, by decide,
    (call_alloc_rollback c2Collab [Arg.mk true 0] c2Spec 1 (by decide) (by decide)
      rfl (by decide) (by decide) (by decide)).1,
    (call_alloc_rollback c2Collab [Arg.mk true 0] c2Spec 1 (by decide) (by decide)
      rfl (by decide) (by decide) (by decide)).2.1⟩

/-- C7 is falsified by the code: on the reachable path where the
conversion of an abstract output to a caller-visible Ruby object fails
(`rb_xnd_from_xnd == NULL`, line 200), the resolution loop stores
`result[i] = NULL` and the call still returns normally, so the caller is
handed back fewer buffers than `spec.nout`.  Here a call whose selected
spec declares exactly one output returns a value containing zero buffers
(the single result slot is `NULL`) and surfaces no error — contradicting
the claim's "one output yields that single buffer" (and the spec's
propagation policy that a call either fully succeeds with all declared
outputs present or fully fails, never returning a partially-filled
result). -/
theorem call_result_missing_buffer :
    (Gumath_GufuncObject_call c7BugCollab [Arg.mk true 0]).outcome
      = .ok (.single none) ∧
    c7BugSpec.nout = 1 ∧
    (RValue.single (none : Option Nat)).buffers.length = 0 := by
  decide

/-- C8: once a kernel is selected, the input stack entries' types are the
selector's resolved broadcast types exactly when broadcasting was applied
(`spec.nbroadcast > 0`), and the original argument types otherwise; and
when no broadcasting was applied, no broadcast descriptor is ever freed. -/
theorem call_broadcast_rewrite (c : Collab) (args : List Arg) (spec : ApplySpec)
    (hlen : ¬ args.length > NDT_MAX_ARGS)
    (hxnd : args.all (fun a => a.isXnd) = true)
    (hsel : c.select (args.map (fun a => a.ty)) = some spec) :
    (Gumath_GufuncObject_call c args).trace.stackTypes
      = (if spec.nbroadcast > 0 then spec.broadcast.take args.length
         else args.map (fun a => a.ty)) ∧
    (spec.nbroadcast = 0 →
      (Gumath_GufuncObject_call c args).trace.broadcastDeleted = []) := by
  unfold Gumath_GufuncObject_call
  rw [if_neg hlen, if_pos hxnd]
  simp only [hsel]
  cases halloc : allocOutputs c.allocOk spec.out 0 with
  | error alloc =>
    simp only [halloc]
    simp
  | ok pr =>
    obtain ⟨res, alloc⟩ := pr
    simp only [halloc]
    by_cases hap : c.applyOk = true
    · rw [if_pos hap]
      refine ⟨rfl, fun hz => ?_⟩
      simp [hz]
    · rw [if_neg hap]
      exact ⟨rfl, fun _ => rfl⟩

/-- Witness for C8: a run with `nbroadcast = 0` keeps the argument types
and frees no broadcast descriptor. -/
theorem call_broadcast_rewrite_witness :
    (Gumath_GufuncObject_call c7Collab [Arg.mk true 0]).trace.stackTypes
      = (if c7Spec.nbroadcast > 0
         then c7Spec.broadcast.take ([Arg.mk true 0].length)
         else [Arg.mk true 0].map (fun a => a.ty)) ∧
    (c7Spec.nbroadcast = 0 →
      (Gumath_GufuncObject_call c7Collab [Arg.mk true 0]).trace.broadcastDeleted
        = []) :=
  call_broadcast_rewrite c7Collab [Arg.mk true 0] c7Spec (by decide) (by decide) rfl

end RubyGumath
